import Mathlib

/-!
Shallow embedding of the resume-pro-ats-api service (src/main.py).

The program is a single-endpoint HTTP service:
  * `extract_text_from_pdf` (main.py lines 117-131): direct PDF text-layer
    extraction with an OCR fallback;
  * `get_gemini_response` (lines 36-115): a fixed prompt template sent to an
    external generation service;
  * `analyze_resume` (lines 133-162): the endpoint orchestration and error
    mapping.

External effects are modelled as explicit data:
  * a `Document` carries the outcome of the two library interactions on the
    uploaded byte stream: the PyPDF2 per-page text-layer reads (line 120-121)
    and the pdf2image+pytesseract OCR pass (lines 127-130).  Each outcome is
    an `Except String` value because either library call may raise, and the
    endpoint catch-all (line 161) observes only the stringified message.
    A page whose extract_text() yields no text is `none` or `some ""`; the
    source maps both to the empty string via `or ""`.
  * the external generation service (genai, line 114) is a parameter
    `svc : String -> Except String String`: a deterministic function of the
    assembled prompt that may instead raise (network, auth, quota).
  * the Python json.loads of the stdlib (line 152) is a parameter
    `jparse : String -> Option Json` over a generic JSON value type: the code
    only observes whether parsing succeeds and passes the parsed value through.
  * run traces (`ExtractTrace`, `RunTrace`) record, next to the result, the
    observable effects the claims mention: how often the stream was rewound
    with seek(0) (lines 119 and 126), whether the OCR path was entered, whether
    the external service was invoked and with which prompt.
-/

namespace ResumePro

/-- Stringified Python exception message, as observed by `str(e)` on line 162. -/
abbrev PyError := String

/-- Generic JSON value, the codomain of the modelled json.loads.  The numeric
payload is immaterial to the program, which never inspects parsed values. -/
inductive Json where
  | null : Json
  | bool (b : Bool) : Json
  | num (q : Int) : Json
  | str (s : String) : Json
  | arr (elems : List Json) : Json
  | obj (fields : List (String × Json)) : Json
deriving Repr

/-- An uploaded document, abstracted to the outcomes of the two library
passes over its byte stream (main.py lines 120-121 and 127-130). -/
structure Document where
  /-- Per-page results of `page.extract_text()` over `pdf.PdfReader(file.file).pages`,
  or the stringified exception if PdfReader or extract_text raises.  `none`
  models a page for which extract_text yields no text (the source guards with
  `or ""`). -/
  textLayer : Except PyError (List (Option String))
  /-- Per-page-image results of `pytesseract.image_to_string` over
  `convert_from_bytes(file.file.read())`, or the stringified exception if
  rendering or OCR raises. -/
  ocrLayer : Except PyError (List String)

/-- Whitespace in the sense of the Python str.strip() ASCII whitespace set. -/
def isPyWhitespace (c : Char) : Bool :=
  c == ' ' || c == '\t' || c == '\n' || c == '\x0d' || c == '\x0b' || c == '\x0c'

/-- Embedding of the Python `str.strip()` (no arguments): remove leading and
trailing whitespace.  Defined over the character list so that it evaluates by
reduction. -/
def pyStrip (s : String) : String :=
  ⟨((s.data.dropWhile isPyWhitespace).reverse.dropWhile isPyWhitespace).reverse⟩

/-- Trace of one run of `extract_text_from_pdf` (main.py lines 117-131). -/
structure ExtractTrace where
  /-- The returned text, or the exception that escaped. -/
  result : Except PyError String
  /-- Whether the OCR fallback path (lines 125-131) was entered. -/
  ocrInvoked : Bool
  /-- Number of `file.file.seek(0)` calls executed (lines 119 and 126). -/
  seeks : Nat
deriving Repr

/-- Instrumented embedding of `extract_text_from_pdf` (main.py lines 117-131):
seek(0), read the text layer, join the per-page texts with newlines treating a
textless page as the empty string (line 121); if the join is non-blank return
it (lines 122-123); otherwise seek(0) again, render and OCR every page, and
return the concatenation of the recognized texts in page order (lines 126-131). -/
def extractRun (doc : Document) : ExtractTrace :=
  match doc.textLayer with
  | Except.error e => ⟨Except.error e, false, 1⟩
  | Except.ok pages =>
    let text := String.intercalate "\n" (pages.map (fun p => p.getD ""))
    if pyStrip text ≠ "" then
      ⟨Except.ok text, false, 1⟩
    else
      match doc.ocrLayer with
      | Except.error e => ⟨Except.error e, true, 2⟩
      | Except.ok ocrPages => ⟨Except.ok (String.join ocrPages), true, 2⟩

/-- The text returned by `extract_text_from_pdf`, or the escaping exception. -/
def extract_text_from_pdf (doc : Document) : Except PyError String :=
  (extractRun doc).result

/-- The fixed prompt template of `get_gemini_response` (main.py lines 37-107)
up to the `Job Description:` interpolation point. -/
def promptPart1 : String := "\n    Analyze this resume against the job description with strict ATS scoring and detailed writing improvements. \n    Follow this exact JSON structure:\n\n    \x7b\n      \"ATS_Analysis\": \x7b\n        \"Total_Score\": \"X%\",\n        \"Breakdown\": \x7b\n          \"Keyword_Match\": \"X%\",\n          \"Experience_Match\": \"X%\",\n          \"Skill_Alignment\": \"X%\",\n          \"Grammar_Score\": \"X%\"\n        \x7d,\n        \"Missing_Keywords\": \x7b\n          \"Hard_Skills\": [\"list\"],\n          \"Soft_Skills\": [\"list\"],\n          \"Critical_Missing\": [\"top 5\"]\n        \x7d,\n        \"Experience_Gaps\": \x7b\n          \"Years_Short\": X,\n          \"Missing_Roles\": [\"list\"],\n          \"Industry_Gaps\": [\"list\"]\n        \x7d\n      \x7d,\n      \"Writing_Improvements\": \x7b\n        \"Total_Errors\": X,\n        \"Errors\": [\n          \x7b\n            \"Original_Text\": \"exact phrase\",\n            \"Section\": \"specific section\",\n            \"Line_Number\": X,\n            \"Error_Type\": \"Grammar|Style|Formatting|Word_Choice\",\n            \"Correction\": \"exact replacement\",\n            \"Explanation\": \"technical reason\",\n            \"Severity\": \"Critical|High|Medium\"\n          \x7d\n        ],\n        \"Style_Recommendations\": [\n          \x7b\n            \"Issue\": \"specific problem\",\n            \"Example\": \"original text\",\n            \"Improved_Version\": \"rewritten text\",\n            \"Section\": \"where to apply\"\n          \x7d\n        ]\n      \x7d,\n      \"Optimization_Tips\": [\"prioritized list\"]\n    \x7d\n\n    Analysis Requirements:\n    1. ATS Scoring (60% weight):\n       - Compare skills/experience with JD\n       - Calculate keyword match percentage\n       - Identify critical missing requirements\n    \n    2. Writing Analysis (40% weight):\n       - Find ALL grammatical errors with exact locations\n       - Require exact replacement text\n       - Classify error types technically\n       - Highlight style inconsistencies\n       - Suggest measurable improvements\n    \n    3. Formatting Checks:\n       - Bullet point consistency\n       - Tense uniformity\n       - Date formats\n       - Section ordering\n\n    Job Description: "

/-- The fixed prompt template between the job-description and resume-text
interpolation points. -/
def promptPart2 : String := "\n    Resume Text: "

/-- The fixed prompt template after the resume-text interpolation point. -/
def promptPart3 : String := "\n    "

/-- The assembled prompt of `get_gemini_response` (main.py lines 37-107): the
f-string interpolates the job description and the resume text into the fixed
template, in that order. -/
def input_prompt (resume_text : String) (job_description : String) : String :=
  promptPart1 ++ job_description ++ promptPart2 ++ resume_text ++ promptPart3

/-- The 400 body message of main.py line 147. -/
def unreadableMsg : String :=
  "Could not extract text from PDF or image. Make sure your resume contains readable text."

/-- The 500 body message of main.py line 157. -/
def jsonErrMsg : String := "Gemini output is not valid JSON."

/-- An HTTP response as produced by `JSONResponse`: a status code and a JSON body. -/
structure Response where
  status : Nat
  body : Json
deriving Repr

/-- Trace of one run of the `analyze_resume` endpoint (main.py lines 133-162). -/
structure RunTrace where
  /-- The single terminal response. -/
  response : Response
  /-- Whether `get_gemini_response` (the external service call) was invoked. -/
  svcCalled : Bool
  /-- The prompt submitted to the external service, when it was invoked. -/
  promptSent : Option String
deriving Repr

/-- Instrumented embedding of the `analyze_resume` endpoint (main.py lines
133-162), parametrised by the json.loads model `jparse` and the external
generation service `svc`.  Extraction errors and service errors are caught by
the outer `except Exception` (lines 161-162); a parse failure of the service
output is caught by the inner `except json.JSONDecodeError` (lines 153-158). -/
def analyzeRun (jparse : String → Option Json) (svc : String → Except PyError String)
    (doc : Document) (job_description : String) : RunTrace :=
  match extract_text_from_pdf doc with
  | Except.error e =>
    ⟨⟨500, Json.obj [("error", Json.str e)]⟩, false, none⟩
  | Except.ok resume_text =>
    if pyStrip resume_text = "" then
      ⟨⟨400, Json.obj [("error", Json.str unreadableMsg)]⟩, false, none⟩
    else
      let prompt := input_prompt resume_text job_description
      match svc prompt with
      | Except.error e =>
        ⟨⟨500, Json.obj [("error", Json.str e)]⟩, true, some prompt⟩
      | Except.ok gemini_response =>
        match jparse gemini_response with
        | none =>
          ⟨⟨500, Json.obj [("error", Json.str jsonErrMsg),
                           ("raw_response", Json.str gemini_response)]⟩,
           true, some prompt⟩
        | some response_json =>
          ⟨⟨200, response_json⟩, true, some prompt⟩

/-- The response of the `analyze_resume` endpoint. -/
def analyze_resume (jparse : String → Option Json) (svc : String → Except PyError String)
    (doc : Document) (job_description : String) : Response :=
  (analyzeRun jparse svc doc job_description).response

end ResumePro

namespace ResumePro

/-! Concrete fixtures used by witnesses and counterexamples. -/

/-- A document whose text layer yields a page with text and a textless page. -/
def docText : Document := ⟨Except.ok [some "hello", none], Except.ok []⟩

/-- A document with a blank text layer whose OCR pass recognizes text. -/
def docOcr : Document := ⟨Except.ok [none], Except.ok ["Line one ", "Line two"]⟩

/-- A document on which both extraction paths yield nothing. -/
def blankDoc : Document := ⟨Except.ok [some ""], Except.ok []⟩

/-- A document with a blank text layer whose OCR pass recognizes only a space. -/
def wsOcrDoc : Document := ⟨Except.ok [], Except.ok [" "]⟩

/-- A document whose text-layer read raises. -/
def badDoc : Document := ⟨Except.error "EOF marker not found", Except.ok []⟩

/-- A document whose text layer yields text with leading and trailing blanks. -/
def docUntrimmed : Document := ⟨Except.ok [some " padded "], Except.ok []⟩

/-- A json.loads model that rejects every input. -/
def jparseFail : String → Option Json := fun _ => none

/-- A json.loads model that parses every input to the empty object. -/
def jparseObj : String → Option Json := fun _ => some (Json.obj [])

/-- A service model returning a fixed non-JSON text. -/
def svcBad : String → Except PyError String := fun _ => Except.ok "not json"

/-- A service model returning a fixed well-formed JSON text. -/
def svcGood : String → Except PyError String := fun _ => Except.ok "\x7b\x7d"

/-- A deterministic service model used for the idempotence witness. -/
def svcDet : String → Except PyError String := fun _ => Except.ok "null"

/-! Helper equations for the two embedded functions, one per control path. -/

lemma extractRun_text_ok (doc : Document) (pages : List (Option String))
    (h : doc.textLayer = Except.ok pages)
    (hnb : pyStrip (String.intercalate "\n" (pages.map (fun p => p.getD ""))) ≠ "") :
    extractRun doc
      = ⟨Except.ok (String.intercalate "\n" (pages.map (fun p => p.getD ""))), false, 1⟩ := by
  unfold extractRun
  rw [h]
  simp [hnb]

lemma extractRun_ocr_ok (doc : Document) (pages : List (Option String)) (ocr : List String)
    (h1 : doc.textLayer = Except.ok pages)
    (hb : pyStrip (String.intercalate "\n" (pages.map (fun p => p.getD ""))) = "")
    (h2 : doc.ocrLayer = Except.ok ocr) :
    extractRun doc = ⟨Except.ok (String.join ocr), true, 2⟩ := by
  unfold extractRun
  rw [h1]
  simp [hb, h2]

lemma analyzeRun_extract_error (jparse : String → Option Json)
    (svc : String → Except PyError String) (doc : Document) (jd : String) (e : PyError)
    (h : extract_text_from_pdf doc = Except.error e) :
    analyzeRun jparse svc doc jd
      = ⟨⟨500, Json.obj [("error", Json.str e)]⟩, false, none⟩ := by
  simp [analyzeRun, h]

lemma analyzeRun_blank (jparse : String → Option Json)
    (svc : String → Except PyError String) (doc : Document) (jd rt : String)
    (h : extract_text_from_pdf doc = Except.ok rt) (hb : pyStrip rt = "") :
    analyzeRun jparse svc doc jd
      = ⟨⟨400, Json.obj [("error", Json.str unreadableMsg)]⟩, false, none⟩ := by
  simp [analyzeRun, h, hb]

lemma analyzeRun_svc_error (jparse : String → Option Json)
    (svc : String → Except PyError String) (doc : Document) (jd rt : String) (e : PyError)
    (h : extract_text_from_pdf doc = Except.ok rt) (hnb : pyStrip rt ≠ "")
    (hsvc : svc (input_prompt rt jd) = Except.error e) :
    analyzeRun jparse svc doc jd
      = ⟨⟨500, Json.obj [("error", Json.str e)]⟩, true, some (input_prompt rt jd)⟩ := by
  simp [analyzeRun, h, hnb, hsvc]

lemma analyzeRun_parse_fail (jparse : String → Option Json)
    (svc : String → Except PyError String) (doc : Document) (jd rt raw : String)
    (h : extract_text_from_pdf doc = Except.ok rt) (hnb : pyStrip rt ≠ "")
    (hsvc : svc (input_prompt rt jd) = Except.ok raw) (hp : jparse raw = none) :
    analyzeRun jparse svc doc jd
      = ⟨⟨500, Json.obj [("error", Json.str jsonErrMsg), ("raw_response", Json.str raw)]⟩,
         true, some (input_prompt rt jd)⟩ := by
  simp [analyzeRun, h, hnb, hsvc, hp]

lemma analyzeRun_parse_ok (jparse : String → Option Json)
    (svc : String → Except PyError String) (doc : Document) (jd rt raw : String) (j : Json)
    (h : extract_text_from_pdf doc = Except.ok rt) (hnb : pyStrip rt ≠ "")
    (hsvc : svc (input_prompt rt jd) = Except.ok raw) (hp : jparse raw = some j) :
    analyzeRun jparse svc doc jd
      = ⟨⟨200, j⟩, true, some (input_prompt rt jd)⟩ := by
  simp [analyzeRun, h, hnb, hsvc, hp]

end ResumePro

namespace ResumePro

/-- C1: when the newline-joined per-page text-layer extraction is non-blank
after stripping, `extract_text_from_pdf` returns exactly that join (a textless
page contributing the empty string) and the OCR fallback path is not entered. -/
theorem C1_text_layer_no_ocr (doc : Document) (pages : List (Option String))
    (h : doc.textLayer = Except.ok pages)
    (hnb : pyStrip (String.intercalate "\n" (pages.map (fun p => p.getD ""))) ≠ "") :
    extract_text_from_pdf doc
        = Except.ok (String.intercalate "\n" (pages.map (fun p => p.getD "")))
    ∧ (extractRun doc).ocrInvoked = false := by
  have hx := extractRun_text_ok doc pages h hnb
  simp [extract_text_from_pdf, hx]

/-- Witness for C1 at a concrete two-page document with one textless page. -/
theorem C1_text_layer_no_ocr_witness :
    extract_text_from_pdf docText
        = Except.ok (String.intercalate "\n" ([some "hello", none].map (fun p => p.getD "")))
    ∧ (extractRun docText).ocrInvoked = false :=
  C1_text_layer_no_ocr docText [some "hello", none] rfl (by decide)

/-- C2: when the text-layer join is blank after stripping, the extractor
rewinds the stream (a second seek(0), recorded as `seeks = 2`), enters the OCR
path, and returns the concatenation of the per-page-image recognized texts in
page order; the conjunct about `blankDoc` records that the final result can
itself be the empty string when both paths fail. -/
theorem C2_ocr_fallback (doc : Document) (pages : List (Option String)) (ocr : List String)
    (h1 : doc.textLayer = Except.ok pages)
    (hb : pyStrip (String.intercalate "\n" (pages.map (fun p => p.getD ""))) = "")
    (h2 : doc.ocrLayer = Except.ok ocr) :
    extractRun doc = ⟨Except.ok (String.join ocr), true, 2⟩
    ∧ extract_text_from_pdf blankDoc = Except.ok "" :=
  ⟨extractRun_ocr_ok doc pages ocr h1 hb h2, rfl⟩

/-- Witness for C2 at a concrete scanned document with two OCR pages. -/
theorem C2_ocr_fallback_witness :
    extractRun docOcr = ⟨Except.ok (String.join ["Line one ", "Line two"]), true, 2⟩
    ∧ extract_text_from_pdf blankDoc = Except.ok "" :=
  C2_ocr_fallback docOcr [none] ["Line one ", "Line two"] rfl (by decide) rfl

/-- C3: when extraction succeeds with a blank (empty or whitespace-only)
result, the endpoint answers 400 with the fixed error body and the external
service is never invoked; conversely a 400 response arises only from that
case. -/
theorem C3_unreadable_400_iff (jparse : String → Option Json)
    (svc : String → Except PyError String) (doc : Document) (jd : String) :
    (∀ rt, extract_text_from_pdf doc = Except.ok rt → pyStrip rt = "" →
      analyze_resume jparse svc doc jd
          = ⟨400, Json.obj [("error", Json.str unreadableMsg)]⟩
        ∧ (analyzeRun jparse svc doc jd).svcCalled = false)
    ∧ ((analyze_resume jparse svc doc jd).status = 400 →
      ∃ rt, extract_text_from_pdf doc = Except.ok rt ∧ pyStrip rt = "") := by
  constructor
  · intro rt hrt hb
    have hx := analyzeRun_blank jparse svc doc jd rt hrt hb
    simp [analyze_resume, hx]
  · intro h400
    rcases he : extract_text_from_pdf doc with e | rt
    · exfalso
      simp [analyze_resume, analyzeRun_extract_error jparse svc doc jd e he] at h400
    · by_cases hb : pyStrip rt = ""
      · exact ⟨rt, rfl, hb⟩
      · exfalso
        rcases hs : svc (input_prompt rt jd) with e | raw
        · simp [analyze_resume,
            analyzeRun_svc_error jparse svc doc jd rt e he hb hs] at h400
        · rcases hp : jparse raw with _ | j
          · simp [analyze_resume,
              analyzeRun_parse_fail jparse svc doc jd rt raw he hb hs hp] at h400
          · simp [analyze_resume,
              analyzeRun_parse_ok jparse svc doc jd rt raw j he hb hs hp] at h400

/-- Witness for C3 at a concrete document on which both paths yield nothing. -/
theorem C3_unreadable_400_iff_witness :
    (analyze_resume jparseFail svcBad blankDoc "jd"
        = ⟨400, Json.obj [("error", Json.str unreadableMsg)]⟩)
    ∧ (analyzeRun jparseFail svcBad blankDoc "jd").svcCalled = false :=
  (C3_unreadable_400_iff jparseFail svcBad blankDoc "jd").1 "" rfl rfl

/-- C4: when the service output fails JSON parsing, the endpoint answers 500
with a body holding the fixed error message and, under "raw_response", the
raw unparsed service output; the malformed output is not coerced into a
success response. -/
theorem C4_parse_failure_diagnostic (jparse : String → Option Json)
    (svc : String → Except PyError String) (doc : Document) (jd rt raw : String)
    (hrt : extract_text_from_pdf doc = Except.ok rt) (hnb : pyStrip rt ≠ "")
    (hsvc : svc (input_prompt rt jd) = Except.ok raw) (hp : jparse raw = none) :
    analyze_resume jparse svc doc jd
      = ⟨500, Json.obj [("error", Json.str jsonErrMsg), ("raw_response", Json.str raw)]⟩ := by
  simp only [analyze_resume, analyzeRun_parse_fail jparse svc doc jd rt raw hrt hnb hsvc hp]

/-- Witness for C4 with a mocked service returning non-JSON text. -/
theorem C4_parse_failure_diagnostic_witness :
    analyze_resume jparseFail svcBad docText "jd"
      = ⟨500, Json.obj [("error", Json.str jsonErrMsg), ("raw_response", Json.str "not json")]⟩ :=
  C4_parse_failure_diagnostic jparseFail svcBad docText "jd" "hello\n" "not json"
    rfl (by decide) rfl rfl

/-- C5: when extraction yields non-blank text and the service output parses,
the endpoint answers 200 with exactly the parsed value; the parse model is an
arbitrary function, so no validation beyond parse success is performed. -/
theorem C5_success_passthrough (jparse : String → Option Json)
    (svc : String → Except PyError String) (doc : Document) (jd rt raw : String) (j : Json)
    (hrt : extract_text_from_pdf doc = Except.ok rt) (hnb : pyStrip rt ≠ "")
    (hsvc : svc (input_prompt rt jd) = Except.ok raw) (hp : jparse raw = some j) :
    analyze_resume jparse svc doc jd = ⟨200, j⟩ := by
  simp only [analyze_resume, analyzeRun_parse_ok jparse svc doc jd rt raw j hrt hnb hsvc hp]

/-- Witness for C5 with a mocked service returning well-formed JSON. -/
theorem C5_success_passthrough_witness :
    analyze_resume jparseObj svcGood docText "jd" = ⟨200, Json.obj []⟩ :=
  C5_success_passthrough jparseObj svcGood docText "jd" "hello\n" "\x7b\x7d" (Json.obj [])
    rfl (by decide) rfl rfl

end ResumePro

namespace ResumePro

/-- C6: exceptions other than a JSON-parse failure — an extraction exception
or a service exception — are caught by the outer handler and mapped to 500
with body holding the stringified message under "error"; and every request
yields exactly one terminal response (the handler is a total function into
single-JSON-body responses). -/
theorem C6_unclassified_500 (jparse : String → Option Json)
    (svc : String → Except PyError String) (doc : Document) (jd : String) :
    (∀ e, extract_text_from_pdf doc = Except.error e →
      analyze_resume jparse svc doc jd = ⟨500, Json.obj [("error", Json.str e)]⟩)
    ∧ (∀ rt e, extract_text_from_pdf doc = Except.ok rt → pyStrip rt ≠ "" →
      svc (input_prompt rt jd) = Except.error e →
      analyze_resume jparse svc doc jd = ⟨500, Json.obj [("error", Json.str e)]⟩)
    ∧ (∃! r, analyze_resume jparse svc doc jd = r) := by
  refine ⟨?_, ?_, analyze_resume jparse svc doc jd, rfl, fun r hr => hr.symm⟩
  · intro e he
    simp [analyze_resume, analyzeRun_extract_error jparse svc doc jd e he]
  · intro rt e hrt hnb hsvc
    simp [analyze_resume, analyzeRun_svc_error jparse svc doc jd rt e hrt hnb hsvc]

/-- Witness for C6 at a concrete document whose text-layer read raises. -/
theorem C6_unclassified_500_witness :
    analyze_resume jparseFail svcBad badDoc "jd"
      = ⟨500, Json.obj [("error", Json.str "EOF marker not found")]⟩ :=
  (C6_unclassified_500 jparseFail svcBad badDoc "jd").1 "EOF marker not found" rfl

/-- C7 counterexample: the claim quantifies over requests with a non-empty
extraction result, but a whitespace-only non-empty result (reachable through
the OCR path, which returns unconditionally) is short-circuited to the 400
branch and no prompt is ever assembled or forwarded, refuting the claim at
the concrete document `wsOcrDoc` whose OCR pass recognizes a single space. -/
theorem C7_counterexample :
    ¬ (∀ (jparse : String → Option Json) (svc : String → Except PyError String)
        (doc : Document) (jd rt : String),
        extract_text_from_pdf doc = Except.ok rt → rt ≠ "" →
        ∃ a b, (analyzeRun jparse svc doc jd).promptSent = some (a ++ rt ++ b)) := by
  intro hclaim
  obtain ⟨a, b, hab⟩ :=
    hclaim jparseObj svcGood wsOcrDoc "jd" " " rfl (by decide)
  rw [show (analyzeRun jparseObj svcGood wsOcrDoc "jd").promptSent = none from rfl] at hab
  exact Option.noConfusion hab

/-- C7 amended: for every request whose extraction result is non-blank after
stripping, the prompt submitted to the external service is exactly the fixed
template with the job description and the extracted text interpolated, so the
extracted text occurs verbatim as a substring — no truncation, no
sanitization. -/
theorem C7_amended_verbatim_forwarding (jparse : String → Option Json)
    (svc : String → Except PyError String) (doc : Document) (jd rt : String)
    (hrt : extract_text_from_pdf doc = Except.ok rt) (hnb : pyStrip rt ≠ "") :
    (analyzeRun jparse svc doc jd).promptSent = some (input_prompt rt jd)
    ∧ ∃ a b, input_prompt rt jd = a ++ rt ++ b := by
  refine ⟨?_, ⟨promptPart1 ++ jd ++ promptPart2, promptPart3, rfl⟩⟩
  rcases hs : svc (input_prompt rt jd) with e | raw
  · rw [analyzeRun_svc_error jparse svc doc jd rt e hrt hnb hs]
  · rcases hp : jparse raw with _ | j
    · rw [analyzeRun_parse_fail jparse svc doc jd rt raw hrt hnb hs hp]
    · rw [analyzeRun_parse_ok jparse svc doc jd rt raw j hrt hnb hs hp]

/-- Witness for the amended C7 at a concrete readable document. -/
theorem C7_amended_verbatim_forwarding_witness :
    (analyzeRun jparseObj svcGood docText "jd").promptSent
        = some (input_prompt "hello\n" "jd")
    ∧ ∃ a b, input_prompt "hello\n" "jd" = a ++ "hello\n" ++ b :=
  C7_amended_verbatim_forwarding jparseObj svcGood docText "jd" "hello\n" rfl (by decide)

/-- C8: with the external service and the JSON parser modeled as deterministic
functions, the endpoint is a function of the document content and the job
description alone: equal inputs yield an identical response (status and body)
and even an identical full trace.  The embedding is input-deterministic
because both library passes follow a seek(0), so neither depends on residual
stream state. -/
theorem C8_deterministic (jparse : String → Option Json)
    (svc : String → Except PyError String) (d₁ d₂ : Document) (jd₁ jd₂ : String)
    (hd : d₁ = d₂) (hjd : jd₁ = jd₂) :
    analyze_resume jparse svc d₁ jd₁ = analyze_resume jparse svc d₂ jd₂
    ∧ analyzeRun jparse svc d₁ jd₁ = analyzeRun jparse svc d₂ jd₂ := by
  subst hd
  subst hjd
  exact ⟨rfl, rfl⟩

/-- Witness for C8 at concrete equal requests. -/
theorem C8_deterministic_witness :
    analyze_resume jparseObj svcDet docText "jd" = analyze_resume jparseObj svcDet docText "jd"
    ∧ analyzeRun jparseObj svcDet docText "jd" = analyzeRun jparseObj svcDet docText "jd" :=
  C8_deterministic jparseObj svcDet docText docText "jd" "jd" rfl rfl

/-- C9: on the successful text-layer path the extractor returns the
newline-joined text itself, not its stripped form — stripping is used only in
the emptiness test — so the returned text can begin or end with whitespace, as
the concrete `docUntrimmed` conjuncts exhibit. -/
theorem C9_untrimmed_return (doc : Document) (pages : List (Option String))
    (h : doc.textLayer = Except.ok pages)
    (hnb : pyStrip (String.intercalate "\n" (pages.map (fun p => p.getD ""))) ≠ "") :
    extract_text_from_pdf doc
        = Except.ok (String.intercalate "\n" (pages.map (fun p => p.getD "")))
    ∧ extract_text_from_pdf docUntrimmed = Except.ok " padded "
    ∧ pyStrip " padded " ≠ " padded " := by
  refine ⟨?_, rfl, by decide⟩
  simp [extract_text_from_pdf, extractRun_text_ok doc pages h hnb]

/-- Witness for C9 at the concrete document with padded text. -/
theorem C9_untrimmed_return_witness :
    extract_text_from_pdf docUntrimmed
        = Except.ok (String.intercalate "\n" ([some " padded "].map (fun p => p.getD "")))
    ∧ extract_text_from_pdf docUntrimmed = Except.ok " padded "
    ∧ pyStrip " padded " ≠ " padded " :=
  C9_untrimmed_return docUntrimmed [some " padded "] rfl (by decide)

/-- C10: the success path imposes no top-level shape on the parsed service
output: for every JSON value v — array, string, number, boolean, null or
object — a run in which the service output parses to v answers 200 with body
exactly v. -/
theorem C10_no_shape_restriction (v : Json) (raw jd : String) :
    analyze_resume (fun _ => some v) (fun _ => Except.ok raw) docText jd = ⟨200, v⟩ := by
  simp only [analyze_resume,
    analyzeRun_parse_ok (fun _ => some v) (fun _ => Except.ok raw) docText jd "hello\n" raw v
      rfl (by decide) rfl rfl]

end ResumePro
